import Mathlib

/-!
Shallow embedding of the core logic of `src/src/App.tsx` from the
advancednostrsearch repository: a single-page app that decodes an author
identifier (npub), optionally fetches the contact list of the author over one
relay connection, issues one filtered note query, and reveals results in
increments of five.  Browser and library boundaries (nip19.decode,
URLSearchParams, relay I/O, ECMAScript Date parsing) are modelled
explicitly; everything inside the component is translated line by line.
-/

namespace App

/-- A nostr event as consumed by the component: relay responses expose at
least `id`, `content`, `created_at` and `tags` (`tags : string[][]`). -/
structure NostrEvent where
  id : String
  content : String
  created_at : Int
  tags : List (List String)
deriving DecidableEq, Repr

/-- The form state of the component: the five `useState` fields that feed
`handleSubmit` (`npub`, `includeNotesFromFollowedUsers`, `query`,
`fromDate`, `toDate` in App.tsx lines 35-42). -/
structure Form where
  npub : String
  includeNotesFromFollowedUsers : Bool
  query : String
  fromDate : String
  toDate : String
deriving DecidableEq, Repr

/-- The result-presentation state of the component: `isSearching` (busy
indicator), `events` (the ResultSet) and `currentDataLength` (the
RevealCursor). -/
structure AppState where
  isSearching : Bool
  events : List NostrEvent
  currentDataLength : Nat
deriving DecidableEq, Repr

/-- A toast raised through the Chakra `useToast` hook, tagged with its status. -/
inductive Toast where
  | warning (title : String)
  | error (title : String)
  | info (title : String)
deriving DecidableEq, Repr

/-- Outcome of the external `nip19.decode(npub)` call.  The library either
returns a `{ type, data }` pair or throws; a thrown JavaScript value may or
may not be an `Error` instance (`isError`), and carries a `message` when it
is one.  (nostr-tools itself always throws `Error` values on malformed
input; the `isError = false` constructor models an arbitrary non-`Error`
throw, which the `catch` block of the component distinguishes.) -/
inductive DecodeOutcome where
  | ok (type : String) (data : String)
  | threw (isError : Bool) (msg : String)
deriving DecidableEq, Repr

/-- Model of `decodeNpub` (App.tsx lines 46-61): returns the decoded key when the
payload type is `"npub"`; on a thrown `Error` raises an error toast with the
underlying message; in every other case returns nothing and raises nothing.
Result: (decoded key if any, toasts raised). -/
def decodeNpub (outcome : DecodeOutcome) : Option String × List Toast :=
  match outcome with
  | .ok type data => (if type = "npub" then some data else none, [])
  | .threw isError msg => (none, if isError then [Toast.error msg] else [])

/-- Follow-key extraction from the optional contact-list event (App.tsx
lines 95-96): `contactListEvent?.tags.map(([_, pubkey]) => pubkey) ?? []`.
Array destructuring of a tag with fewer than two elements yields
`undefined`, modelled as `none`; hence the element type `Option String`. -/
def followedFromContactEvent (contactEvent : Option NostrEvent) : List (Option String) :=
  match contactEvent with
  | some e => e.tags.map (fun t => t[1]?)
  | none => []

/-- The authors array of the main query (App.tsx lines 102-104):
`includeNotesFromFollowedUsers ? [...followedAuthorPubkeys, decodedNpub]
: [decodedNpub]`.  A plain array spread: no deduplication is performed. -/
def buildAuthors (includeFollowed : Bool) (followed : List (Option String))
    (decoded : String) : List (Option String) :=
  if includeFollowed then followed ++ [some decoded] else [some decoded]

/-- Gregorian leap-year rule, as in the ECMAScript calendar arithmetic. -/
def isLeapYear (y : Nat) : Bool :=
  (y % 4 = 0 && y % 100 != 0) || y % 400 = 0

/-- Days in a Gregorian month. -/
def daysInMonth (y m : Nat) : Nat :=
  if m = 2 then (if isLeapYear y then 29 else 28)
  else if m = 4 ∨ m = 6 ∨ m = 9 ∨ m = 11 then 30
  else 31

/-- Value of an ASCII digit character. -/
def digitVal (c : Char) : Option Nat :=
  if c.isDigit then some (c.toNat - 48) else none

/-- Parser for the `YYYY-MM-DD` date-only strings produced by
`<input type="date">`: exactly ten characters, two dashes, a valid calendar
date.  Any other string makes `new Date(s)` an Invalid Date (NaN),
modelled as `none`. -/
def parseDateOnly (s : String) : Option (Nat × Nat × Nat) :=
  match s.data with
  | [y1, y2, y3, y4, sep1, m1, m2, sep2, d1, d2] =>
    if sep1 = '-' ∧ sep2 = '-' then
      match digitVal y1, digitVal y2, digitVal y3, digitVal y4,
            digitVal m1, digitVal m2, digitVal d1, digitVal d2 with
      | some a, some b, some c, some d, some e, some f, some g, some h =>
        let y := 1000 * a + 100 * b + 10 * c + d
        let m := 10 * e + f
        let day := 10 * g + h
        if 1 ≤ m ∧ m ≤ 12 ∧ 1 ≤ day ∧ day ≤ daysInMonth y m then
          some (y, m, day)
        else none
      | _, _, _, _, _, _, _, _ => none
    else none
  | _ => none

/-- Days since 1970-01-01 of a proleptic-Gregorian civil date (the standard
civil-from-days algorithm, matching ECMAScript `MakeDay`). -/
def daysFromCivil (y m d : Nat) : Int :=
  let yi : Int := if m ≤ 2 then (y : Int) - 1 else (y : Int)
  let era : Int := (if 0 ≤ yi then yi else yi - 399) / 400
  let yoe : Int := yi - era * 400
  let mp : Int := ((m : Int) + 9) % 12
  let doy : Int := (153 * mp + 2) / 5 + (d : Int) - 1
  let doe : Int := yoe * 365 + yoe / 4 - yoe / 100 + doy
  era * 146097 + doe - 719468

/-- Epoch seconds of midnight UTC on a civil date. -/
def utcMidnightSeconds (y m d : Nat) : Int :=
  daysFromCivil y m d * 86400

/-- Model of `convertDateToUnixTimestamp` (App.tsx lines 62-63):
`new Date(date).getTime() / 1000`.  Per the ECMAScript Date Time String
Format, a date-only string is interpreted as midnight **UTC**, so
`getTime()` is `days * 86400000` and the division is exact; an unparseable
string gives NaN, modelled as `none`. -/
def convertDateToUnixTimestamp (date : String) : Option Int :=
  (parseDateOnly date).map (fun p => utcMidnightSeconds p.1 p.2.1 p.2.2)

/-- Epoch seconds of midnight **local** time on the date in `s`, in an
environment whose timezone offset is `tzOffsetMinutes` minutes west of UTC
(the value returned by the JavaScript `getTimezoneOffset()`; 300 for UTC-05:00).
Local midnight occurs `tzOffsetMinutes` minutes after UTC midnight.
This is the reading of the date bound used by the spec, written for comparison with
`convertDateToUnixTimestamp`. -/
def localMidnightEpochSeconds (tzOffsetMinutes : Int) (s : String) : Option Int :=
  (parseDateOnly s).map
    (fun p => utcMidnightSeconds p.1 p.2.1 p.2.2 + tzOffsetMinutes * 60)

/-- The filter object of the main `relay.list` request (App.tsx lines
100-108).  `authors` keeps element type `Option String` because the spread
of `followedAuthorPubkeys` can carry `undefined` entries (see
`followedFromContactEvent`).  `since`/`until'` are `Option (Option Int)`:
the outer layer is `undefined` (field omitted when the date field is
empty), the inner layer is NaN (unparseable date string).  The source field
name `until` is a Lean keyword, hence `until'`. -/
structure Filter where
  kinds : List Nat
  authors : List (Option String)
  search : Option String
  since : Option (Option Int)
  until' : Option (Option Int)
deriving DecidableEq, Repr

/-- The body of the main query filter (App.tsx lines 100-108), given the
form, the decoded key and the (possibly empty) extracted followed keys:
kinds `[1]`, the authors array from `buildAuthors`, `search` present iff
the query text is non-empty, `since`/`until` present iff the respective
date field is non-empty. -/
def mainFilter (form : Form) (decoded : String) (followed : List (Option String)) : Filter :=
  { kinds := [1]
  , authors := buildAuthors form.includeNotesFromFollowedUsers followed decoded
  , search := if form.query ≠ "" then some form.query else none
  , since := if form.fromDate ≠ "" then some (convertDateToUnixTimestamp form.fromDate) else none
  , until' := if form.toDate ≠ "" then some (convertDateToUnixTimestamp form.toDate) else none }

/-- A network request issued over the relay connection: the contact-list
fetch `relay.get({kinds: [3], authors: [decodedNpub]})` (App.tsx lines
90-93) or the main note query `relay.list([filter])` (lines 99-109). -/
inductive Request where
  | getContacts (author : String)
  | listNotes (filter : Filter)
deriving DecidableEq, Repr

/-- Outcome of `relay.connect()`: the `connect` handler fires with the
relay responses (the optional contact-list event and the note list), or
the `error` handler fires. -/
inductive ConnOutcome where
  | connected (contactEvent : Option NostrEvent) (results : List NostrEvent)
  | connError
deriving DecidableEq, Repr

/-- Everything observable about one submission: the final component state,
the toasts raised, the relay requests issued, and whether a connection was
attempted at all. -/
structure SubmitResult where
  state : AppState
  toasts : List Toast
  requests : List Request
  connectAttempted : Bool
deriving DecidableEq, Repr

/-- The followed-author keys used by the main query: extracted from the
contact-list event only when `includeNotesFromFollowedUsers` is set
(App.tsx lines 87-97), otherwise the initial empty array. -/
def submitFollowed (form : Form) (contactEvent : Option NostrEvent) : List (Option String) :=
  if form.includeNotesFromFollowedUsers then followedFromContactEvent contactEvent else []

/-- Model of `handleSubmit` (App.tsx lines 64-130), with the network abstracted by
`DecodeOutcome` and `ConnOutcome`:
1. empty `npub` → warning toast, return (no connection, no state change);
2. decode failure → toasts from `decodeNpub`, return;
3. otherwise set the busy indicator, connect;
   on error → busy indicator reset, nothing else touched;
   on connect → optional contact-list fetch, the main note query, an info
   toast when no events were found, then RevealCursor `min 5 n`, ResultSet
   replaced, busy indicator reset. -/
def handleSubmit (form : Form) (st : AppState) (dec : DecodeOutcome)
    (conn : ConnOutcome) : SubmitResult :=
  if form.npub = "" then
    { state := st, toasts := [Toast.warning "npub is required"]
    , requests := [], connectAttempted := false }
  else
    match decodeNpub dec with
    | (none, ts) =>
      { state := st, toasts := ts, requests := [], connectAttempted := false }
    | (some decoded, ts) =>
      match conn with
      | .connError =>
        { state := { st with isSearching := false }, toasts := ts
        , requests := [], connectAttempted := true }
      | .connected contactEvent results =>
        let followed := submitFollowed form contactEvent
        let filter := mainFilter form decoded followed
        { state := { isSearching := false, events := results
                   , currentDataLength := min 5 results.length }
        , toasts := ts ++ (if results.length = 0 then [Toast.info "no events found"] else [])
        , requests :=
            (if form.includeNotesFromFollowedUsers then [Request.getContacts decoded] else [])
              ++ [Request.listNotes filter]
        , connectAttempted := true }

/-- The RevealCursor value installed with a fresh result set (App.tsx line
118): `Math.min(5, events.length)`. -/
def installCursor (n : Nat) : Nat := min 5 n

/-- Model of `updateCurrentDataLength` (App.tsx lines 171-175): the reveal-more step
`prev + 5 < events.length ? prev + 5 : events.length`. -/
def updateCurrentDataLength (prev n : Nat) : Nat :=
  if prev + 5 < n then prev + 5 else n

/-- Iteration of `k` successive reveal-more steps on a result set of length `n`. -/
def revealIter (n : Nat) : Nat → Nat → Nat
  | 0, c => c
  | k + 1, c => revealIter n k (updateCurrentDataLength c n)

/-- The query-string key of the followed-users checkbox (App.tsx line 30). -/
def INCLUDE_FOLLOWED_USERS_QUERY_PARAM : String := "includeFollowed"

/-- Model of `URLSearchParams.get`: value of the first pair with the given key. -/
def qpGet : List (String × String) → String → Option String
  | [], _ => none
  | p :: rest, k => if p.1 = k then some p.2 else qpGet rest k

/-- Model of `URLSearchParams.delete`: remove every pair with the given key. -/
def qpDelete : List (String × String) → String → List (String × String)
  | [], _ => []
  | p :: rest, k => if p.1 = k then qpDelete rest k else p :: qpDelete rest k

/-- Model of `URLSearchParams.set`: replace the value of the first pair with the
given key and drop the other pairs with that key, or append the pair when
the key is absent. -/
def qpSet : List (String × String) → String → String → List (String × String)
  | [], k, v => [(k, v)]
  | p :: rest, k, v => if p.1 = k then (k, v) :: qpDelete rest k else p :: qpSet rest k v

/-- The body of `makeOnChangeHandler` (App.tsx lines 146-159): on a field
change, set the query-string key of the field when the new value is truthy (a
non-empty string), delete it otherwise.  (The `set(e.target.value)` state
update itself is the identity on the value.) -/
def makeOnChangeHandler (qs : List (String × String)) (key value : String) :
    List (String × String) :=
  if value ≠ "" then qpSet qs key value else qpDelete qs key

/-- Model of `updateIncludeFollowedQueryParam` (App.tsx lines 160-170): set the
checkbox key to `"1"` when checked, delete it when unchecked. -/
def updateIncludeFollowedQueryParam (qs : List (String × String))
    (includeFollowed : Bool) : List (String × String) :=
  if includeFollowed then qpSet qs INCLUDE_FOLLOWED_USERS_QUERY_PARAM "1"
  else qpDelete qs INCLUDE_FOLLOWED_USERS_QUERY_PARAM

/-- Initialisation of a string form field from the query string (App.tsx
lines 35, 38-42): `queryParams.get(key) ?? ""`. -/
def initStringField (qs : List (String × String)) (key : String) : String :=
  (qpGet qs key).getD ""

/-- Initialisation of the followed-users checkbox (App.tsx lines 36-37):
`queryParams.get(INCLUDE_FOLLOWED_USERS_QUERY_PARAM) === "1"`. -/
def initIncludeFollowed (qs : List (String × String)) : Bool :=
  qpGet qs INCLUDE_FOLLOWED_USERS_QUERY_PARAM = some "1"

/-- Sample form value with the followed-users checkbox off. -/
def F0 : Form :=
  { npub := "npub1x", includeNotesFromFollowedUsers := false
  , query := "", fromDate := "", toDate := "" }

/-- Sample form value with the followed-users checkbox on. -/
def F1 : Form :=
  { npub := "npub1x", includeNotesFromFollowedUsers := true
  , query := "", fromDate := "", toDate := "" }

/-- Sample form value with a from-date filled in. -/
def F2 : Form :=
  { npub := "npub1x", includeNotesFromFollowedUsers := false
  , query := "", fromDate := "1970-01-02", toDate := "" }

/-- Sample contact-list event whose single tag names the author itself. -/
def E1 : NostrEvent :=
  { id := "e1", content := "", created_at := 0, tags := [["p", "a"]] }

/-- Sample contact-list event with one malformed (single-element) tag. -/
def E2 : NostrEvent :=
  { id := "e2", content := "", created_at := 0, tags := [["p"], ["p", "b"]] }

/-- Sample note event standing for a previously displayed result. -/
def E3 : NostrEvent :=
  { id := "prev", content := "hello", created_at := 100, tags := [] }

/-- Empty initial component state. -/
def S0 : AppState := { isSearching := false, events := [], currentDataLength := 0 }

/-- Component state holding one previously displayed result. -/
def S1 : AppState := { isSearching := true, events := [E3], currentDataLength := 1 }

/-- Helper: the reveal-more step equals a capped increment by five. -/
theorem updateCurrentDataLength_min (c n : Nat) :
    updateCurrentDataLength c n = min (c + 5) n := by
  unfold updateCurrentDataLength
  split <;> omega

/-- Helper: iterating the reveal-more step from a capped value stays capped
and advances by five per step. -/
theorem revealIter_min (n : Nat) :
    ∀ k m : Nat, revealIter n k (min m n) = min (m + 5 * k) n := by
  intro k
  induction k with
  | zero => intro m; simp [revealIter]
  | succ k ih =>
    intro m
    have h1 : min (min m n + 5) n = min (m + 5) n := by omega
    have h2 : m + 5 + 5 * k = m + 5 * (k + 1) := by ring
    calc revealIter n (k + 1) (min m n)
        = revealIter n k (updateCurrentDataLength (min m n) n) := rfl
      _ = revealIter n k (min (m + 5) n) := by
            rw [updateCurrentDataLength_min, h1]
      _ = min (m + 5 + 5 * k) n := ih (m + 5)
      _ = min (m + 5 * (k + 1)) n := by rw [h2]

/-- Helper: reading a key just set yields the value just written. -/
theorem qpGet_qpSet_self (qs : List (String × String)) (k v : String) :
    qpGet (qpSet qs k v) k = some v := by
  induction qs with
  | nil => simp [qpSet, qpGet]
  | cons p rest ih =>
    by_cases h : p.1 = k
    · simp [qpSet, h, qpGet]
    · simp [qpSet, h, qpGet, ih]

/-- Helper: no pair with the deleted key survives a delete. -/
theorem qpDelete_not_mem (qs : List (String × String)) (k : String) :
    ∀ p ∈ qpDelete qs k, p.1 ≠ k := by
  induction qs with
  | nil => simp [qpDelete]
  | cons q rest ih =>
    by_cases h : q.1 = k
    · simpa [qpDelete, h] using ih
    · intro p hp
      simp only [qpDelete, h, if_neg, ite_false, List.mem_cons] at hp
      rcases hp with hp | hp
      · subst hp; exact h
      · exact ih p hp

/-- Helper: reading a key just deleted yields nothing. -/
theorem qpGet_qpDelete_self (qs : List (String × String)) (k : String) :
    qpGet (qpDelete qs k) k = none := by
  induction qs with
  | nil => simp [qpDelete, qpGet]
  | cons q rest ih =>
    by_cases h : q.1 = k
    · simpa [qpDelete, h] using ih
    · simp [qpDelete, h, qpGet, ih]

/-- C1: on every successful submission the authors array of the main note
query contains the decoded author key; when the followed-users flag is set
it also contains every key extracted from the contact list; when the flag
is clear the array is exactly the decoded key and the only relay request
issued is the main note query (no contact-list fetch). -/
theorem c1_main_query_authors (form : Form) (st : AppState) (decoded : String)
    (contactEvent : Option NostrEvent) (results : List NostrEvent)
    (hn : form.npub ≠ "") :
    some decoded ∈ (mainFilter form decoded (submitFollowed form contactEvent)).authors
    ∧ (form.includeNotesFromFollowedUsers = true →
        ∀ k ∈ followedFromContactEvent contactEvent,
          k ∈ (mainFilter form decoded (submitFollowed form contactEvent)).authors)
    ∧ (form.includeNotesFromFollowedUsers = false →
        (mainFilter form decoded (submitFollowed form contactEvent)).authors = [some decoded]
        ∧ (handleSubmit form st (.ok "npub" decoded) (.connected contactEvent results)).requests
            = [Request.listNotes (mainFilter form decoded (submitFollowed form contactEvent))])
    ∧ (handleSubmit form st (.ok "npub" decoded) (.connected contactEvent results)).requests
        = (if form.includeNotesFromFollowedUsers then [Request.getContacts decoded] else [])
          ++ [Request.listNotes (mainFilter form decoded (submitFollowed form contactEvent))] := by
  refine ⟨?_, ?_, ?_, ?_⟩
  · cases hf : form.includeNotesFromFollowedUsers <;>
      simp [mainFilter, buildAuthors, hf]
  · intro hf k hk
    simp only [mainFilter, buildAuthors, submitFollowed, hf, if_true, List.mem_append]
    exact Or.inl hk
  · intro hf
    refine ⟨by simp [mainFilter, buildAuthors, hf], ?_⟩
    simp [handleSubmit, hn, decodeNpub, hf]
  · simp [handleSubmit, hn, decodeNpub]

/-- Witness for C1 at a concrete submission with the flag off: the authors
array is exactly the decoded key and a single note-query request is
issued. -/
theorem c1_main_query_authors_witness :
    some "a" ∈ (mainFilter F0 "a" (submitFollowed F0 none)).authors
    ∧ (mainFilter F0 "a" (submitFollowed F0 none)).authors = [some "a"]
    ∧ (handleSubmit F0 S0 (.ok "npub" "a") (.connected none [])).requests
        = [Request.listNotes (mainFilter F0 "a" (submitFollowed F0 none))] :=
  ⟨(c1_main_query_authors F0 S0 "a" none [] (by decide)).1,
   ((c1_main_query_authors F0 S0 "a" none [] (by decide)).2.2.1 rfl).1,
   ((c1_main_query_authors F0 S0 "a" none [] (by decide)).2.2.1 rfl).2⟩

/-- C2: with a non-empty npub field, a decode that throws an `Error` with
message `msg` reports exactly one error toast carrying `msg` and aborts the
submission with no request and no state change, while a decode that
succeeds with a payload type other than `"npub"` aborts with no toast at
all, no request and no state change. -/
theorem c2_decode_failure_asymmetry (form : Form) (st : AppState)
    (conn : ConnOutcome) (msg type data : String)
    (hn : form.npub ≠ "") (ht : type ≠ "npub") :
    handleSubmit form st (.threw true msg) conn
      = { state := st, toasts := [Toast.error msg]
        , requests := [], connectAttempted := false }
    ∧ handleSubmit form st (.ok type data) conn
      = { state := st, toasts := []
        , requests := [], connectAttempted := false } := by
  constructor
  · simp [handleSubmit, hn, decodeNpub]
  · simp [handleSubmit, hn, decodeNpub, ht]

/-- Witness for C2 at a concrete malformed decode and a concrete
wrong-kind decode. -/
theorem c2_decode_failure_asymmetry_witness :
    handleSubmit F0 S0 (.threw true "invalid checksum") .connError
      = { state := S0, toasts := [Toast.error "invalid checksum"]
        , requests := [], connectAttempted := false }
    ∧ handleSubmit F0 S0 (.ok "note" "d") .connError
      = { state := S0, toasts := []
        , requests := [], connectAttempted := false } :=
  c2_decode_failure_asymmetry F0 S0 .connError "invalid checksum" "note" "d"
    (by decide) (by decide)

/-- C3: installing a result set of length `n` sets the reveal cursor to
`min 5 n`; every reveal-more step maps `c` to `min (c + 5) n`, is monotone
and capped at `n` whenever `c ≤ n`; iterating the step `⌈n / 5⌉` times from
the installed value reaches exactly `n`; and the step is idempotent at
`n`. -/
theorem c3_reveal_cursor_progression (n c : Nat) (h : c ≤ n) :
    installCursor n = min 5 n
    ∧ updateCurrentDataLength c n = min (c + 5) n
    ∧ c ≤ updateCurrentDataLength c n
    ∧ updateCurrentDataLength c n ≤ n
    ∧ revealIter n ((n + 4) / 5) (installCursor n) = n
    ∧ updateCurrentDataLength n n = n := by
  refine ⟨rfl, updateCurrentDataLength_min c n, ?_, ?_, ?_, ?_⟩
  · rw [updateCurrentDataLength_min]; omega
  · rw [updateCurrentDataLength_min]; omega
  · have h5 := Nat.div_add_mod (n + 4) 5
    have hm : (n + 4) % 5 < 5 := Nat.mod_lt _ (by norm_num)
    have hrw : revealIter n ((n + 4) / 5) (installCursor n)
        = min (5 + 5 * ((n + 4) / 5)) n := revealIter_min n ((n + 4) / 5) 5
    rw [hrw]
    omega
  · rw [updateCurrentDataLength_min]; omega

/-- Witness for C3 on a result set of twelve items, starting from the
cursor value five it installs. -/
theorem c3_reveal_cursor_progression_witness :
    installCursor 12 = min 5 12
    ∧ updateCurrentDataLength 5 12 = min (5 + 5) 12
    ∧ 5 ≤ updateCurrentDataLength 5 12
    ∧ updateCurrentDataLength 5 12 ≤ 12
    ∧ revealIter 12 ((12 + 4) / 5) (installCursor 12) = 12
    ∧ updateCurrentDataLength 12 12 = 12 :=
  c3_reveal_cursor_progression 12 5 (by decide)

/-- Counterexample to C4: a reachable submission (flag set, contact list
naming the author itself) whose main-query authors array is
`[some "a", some "a"]` — it has duplicate entries, so it is not a set of
unique keys. -/
theorem c4_duplicate_authors_counterexample :
    (handleSubmit F1 S0 (.ok "npub" "a") (.connected (some E1) [])).requests
      = [Request.getContacts "a",
         Request.listNotes (mainFilter F1 "a" [some "a"])]
    ∧ (mainFilter F1 "a" [some "a"]).authors = [some "a", some "a"]
    ∧ ¬ (mainFilter F1 "a" [some "a"]).authors.Nodup := by
  refine ⟨by decide, by decide, by decide⟩

/-- C4 amended: the authors array always contains the decoded author key
and, when the flag is set, every contact key, but it is a plain array of
length `contacts + 1` with no deduplication, so it holds duplicates
whenever the contact list already yields the decoded key. -/
theorem c4_authors_contain_but_not_dedup (flag : Bool)
    (followed : List (Option String)) (decoded : String) :
    some decoded ∈ buildAuthors flag followed decoded
    ∧ (flag = true → ∀ k ∈ followed, k ∈ buildAuthors flag followed decoded)
    ∧ (buildAuthors flag followed decoded).length
        = (if flag then followed.length + 1 else 1) := by
  refine ⟨?_, ?_, ?_⟩
  · cases flag <;> simp [buildAuthors]
  · intro hf k hk
    simp only [buildAuthors, hf, if_true, List.mem_append]
    exact Or.inl hk
  · cases flag <;> simp [buildAuthors]

/-- Witness for C4 amended at a concrete flag-on call. -/
theorem c4_authors_contain_but_not_dedup_witness :
    some "a" ∈ buildAuthors true [some "b"] "a"
    ∧ (∀ k ∈ [some "b"], k ∈ buildAuthors true [some "b"] "a")
    ∧ (buildAuthors true [some "b"] "a").length = (if true then 1 + 1 else 1) :=
  ⟨(c4_authors_contain_but_not_dedup true [some "b"] "a").1,
   (c4_authors_contain_but_not_dedup true [some "b"] "a").2.1 rfl,
   (c4_authors_contain_but_not_dedup true [some "b"] "a").2.2⟩

/-- Counterexample to C5: a contact-list event with one malformed
(single-element) tag.  The extraction does not skip the malformed entry: it
keeps one entry per tag and the malformed tag contributes an absent
(`undefined`) key, which is then part of the extracted key list. -/
theorem c5_malformed_tag_counterexample :
    followedFromContactEvent (some E2) = [none, some "b"]
    ∧ none ∈ followedFromContactEvent (some E2)
    ∧ (followedFromContactEvent (some E2)).length = 2 := by
  refine ⟨by decide, by decide, by decide⟩

/-- C5 amended: the extraction takes the second element of every tag entry
and never throws: it yields exactly one entry per tag, a tag lacking a
second element contributes an absent (`undefined`) entry instead of being
skipped, and the main note query is still issued afterwards — the search is
never aborted by a malformed tag. -/
theorem c5_malformed_tags_kept_never_fatal (e : NostrEvent) (form : Form)
    (st : AppState) (decoded : String) (results : List NostrEvent)
    (hn : form.npub ≠ "") (hf : form.includeNotesFromFollowedUsers = true) :
    (followedFromContactEvent (some e)).length = e.tags.length
    ∧ (∀ t ∈ e.tags, t[1]? ∈ followedFromContactEvent (some e))
    ∧ (∀ t ∈ e.tags, t.length ≤ 1 → none ∈ followedFromContactEvent (some e))
    ∧ Request.listNotes (mainFilter form decoded (followedFromContactEvent (some e)))
        ∈ (handleSubmit form st (.ok "npub" decoded) (.connected (some e) results)).requests := by
  refine ⟨?_, ?_, ?_, ?_⟩
  · simp [followedFromContactEvent]
  · intro t ht
    simp only [followedFromContactEvent]
    exact List.mem_map_of_mem _ ht
  · intro t ht hlen
    have hnone : t[1]? = none := by
      rw [List.getElem?_eq_none]
      omega
    have hmem : t[1]? ∈ List.map (fun t => t[1]?) e.tags :=
      List.mem_map_of_mem (fun t => t[1]?) ht
    rw [hnone] at hmem
    simpa [followedFromContactEvent] using hmem
  · simp [handleSubmit, hn, decodeNpub, hf, submitFollowed]

/-- Witness for C5 amended at the concrete malformed contact list `E2`. -/
theorem c5_malformed_tags_kept_never_fatal_witness :
    (followedFromContactEvent (some E2)).length = E2.tags.length
    ∧ (["p"].length ≤ 1 → none ∈ followedFromContactEvent (some E2))
    ∧ Request.listNotes (mainFilter F1 "a" (followedFromContactEvent (some E2)))
        ∈ (handleSubmit F1 S0 (.ok "npub" "a") (.connected (some E2) [])).requests :=
  ⟨(c5_malformed_tags_kept_never_fatal E2 F1 S0 "a" [] (by decide) rfl).1,
   (c5_malformed_tags_kept_never_fatal E2 F1 S0 "a" [] (by decide) rfl).2.2.1
     ["p"] (by decide),
   (c5_malformed_tags_kept_never_fatal E2 F1 S0 "a" [] (by decide) rfl).2.2.2⟩

/-- Counterexample to C6: with the from-date field set to `1970-01-02`, the
since bound of the query is the epoch seconds of midnight **UTC** on that
date (86400), while midnight local time on that date in an environment five
hours west of UTC (timezone offset 300 minutes) is 104400 — the two
disagree, so the bound is not the local-midnight interpretation the claim
states. -/
theorem c6_local_midnight_counterexample :
    (mainFilter F2 "a" []).since = some (some 86400)
    ∧ localMidnightEpochSeconds 300 "1970-01-02" = some 104400
    ∧ (some (some (86400 : Int)) : Option (Option Int)) ≠ some (some 104400) := by
  refine ⟨by decide, by decide, by decide⟩

/-- C6 amended: the since (resp. until) bound is present iff the from-date
(resp. to-date) field is non-empty, in which case it is
`convertDateToUnixTimestamp` of the field; for every parseable
`YYYY-MM-DD` string that conversion yields the integer epoch seconds of
midnight **UTC** on that date (ECMAScript parses date-only strings as UTC,
not local time), and every produced value is a whole multiple of 86400. -/
theorem c6_date_bounds_utc_midnight (form : Form) (decoded : String)
    (followed : List (Option String)) :
    ((mainFilter form decoded followed).since
      = if form.fromDate = "" then none
        else some (convertDateToUnixTimestamp form.fromDate))
    ∧ ((mainFilter form decoded followed).until'
      = if form.toDate = "" then none
        else some (convertDateToUnixTimestamp form.toDate))
    ∧ (∀ s y m d, parseDateOnly s = some (y, m, d) →
        convertDateToUnixTimestamp s = some (utcMidnightSeconds y m d))
    ∧ (∀ s v, convertDateToUnixTimestamp s = some v → (86400 : Int) ∣ v) := by
  refine ⟨?_, ?_, ?_, ?_⟩
  · by_cases hd : form.fromDate = "" <;> simp [mainFilter, hd]
  · by_cases hd : form.toDate = "" <;> simp [mainFilter, hd]
  · intro s y m d hp
    simp [convertDateToUnixTimestamp, hp]
  · intro s v hv
    simp only [convertDateToUnixTimestamp, Option.map_eq_some'] at hv
    obtain ⟨p, _, hp⟩ := hv
    exact ⟨daysFromCivil p.1 p.2.1 p.2.2, by rw [← hp, utcMidnightSeconds, mul_comm]⟩

/-- Witness for C6 amended: the concrete form `F2` carries the from-date
`1970-01-02`, whose bound evaluates to day one times 86400, and the date
`2023-05-01` converts to its UTC-midnight epoch seconds. -/
theorem c6_date_bounds_utc_midnight_witness :
    (mainFilter F2 "a" []).since
      = (if F2.fromDate = "" then none
         else some (convertDateToUnixTimestamp F2.fromDate))
    ∧ convertDateToUnixTimestamp "2023-05-01" = some (utcMidnightSeconds 2023 5 1)
    ∧ (86400 : Int) ∣ 1682899200 :=
  ⟨(c6_date_bounds_utc_midnight F2 "a" []).1,
   (c6_date_bounds_utc_midnight F2 "a" []).2.2.1 "2023-05-01" 2023 5 1 (by decide),
   (c6_date_bounds_utc_midnight F2 "a" []).2.2.2 "2023-05-01" 1682899200 (by decide)⟩

/-- C7: for every query-string mapping and field key, writing a non-empty
value through the change handler and re-initialising the field from the
mapping reproduces exactly that value; writing the empty value (or
unchecking the followed-users box) removes the key entirely, after which
initialisation yields the default empty string (resp. `false`); and a key
absent from the mapping initialises to the default. -/
theorem c7_query_string_roundtrip (qs : List (String × String))
    (key value : String) :
    (value ≠ "" → initStringField (makeOnChangeHandler qs key value) key = value)
    ∧ (value = "" →
        qpGet (makeOnChangeHandler qs key value) key = none
        ∧ initStringField (makeOnChangeHandler qs key value) key = ""
        ∧ ∀ p ∈ makeOnChangeHandler qs key value, p.1 ≠ key)
    ∧ initIncludeFollowed (updateIncludeFollowedQueryParam qs true) = true
    ∧ qpGet (updateIncludeFollowedQueryParam qs false)
        INCLUDE_FOLLOWED_USERS_QUERY_PARAM = none
    ∧ initIncludeFollowed (updateIncludeFollowedQueryParam qs false) = false
    ∧ (qpGet qs key = none → initStringField qs key = "") := by
  refine ⟨?_, ?_, ?_, ?_, ?_, ?_⟩
  · intro hv
    simp [makeOnChangeHandler, hv, initStringField, qpGet_qpSet_self]
  · intro hv
    refine ⟨?_, ?_, ?_⟩
    · simp [makeOnChangeHandler, hv, qpGet_qpDelete_self]
    · simp [makeOnChangeHandler, hv, initStringField, qpGet_qpDelete_self]
    · intro p hp
      have : p ∈ qpDelete qs key := by
        simpa [makeOnChangeHandler, hv] using hp
      exact qpDelete_not_mem qs key p this
  · simp [updateIncludeFollowedQueryParam, initIncludeFollowed, qpGet_qpSet_self]
  · simp [updateIncludeFollowedQueryParam, qpGet_qpDelete_self]
  · simp [updateIncludeFollowedQueryParam, initIncludeFollowed, qpGet_qpDelete_self]
  · intro h
    simp [initStringField, h]

/-- Witness for C7 at concrete mappings: a written npub value is read back,
emptying the query field removes its key, and checking the box is read back
as true. -/
theorem c7_query_string_roundtrip_witness :
    initStringField (makeOnChangeHandler [("a", "b")] "npub" "npub1x") "npub" = "npub1x"
    ∧ qpGet (makeOnChangeHandler [("query", "old"), ("a", "b")] "query" "") "query" = none
    ∧ initIncludeFollowed (updateIncludeFollowedQueryParam [("a", "b")] true) = true :=
  ⟨(c7_query_string_roundtrip [("a", "b")] "npub" "npub1x").1 (by decide),
   ((c7_query_string_roundtrip [("query", "old"), ("a", "b")] "query" "").2.1 rfl).1,
   (c7_query_string_roundtrip [("a", "b")] "x" "y").2.2.1⟩

/-- C8: when the relay connection fails after a successful decode, the only
state change of the submission is resetting the busy indicator: the result
set and the reveal cursor keep their previous values, no request is issued
and no toast is raised. -/
theorem c8_connection_failure_frame (form : Form) (st : AppState)
    (decoded : String) (hn : form.npub ≠ "") :
    (handleSubmit form st (.ok "npub" decoded) .connError).state.events = st.events
    ∧ (handleSubmit form st (.ok "npub" decoded) .connError).state.currentDataLength
        = st.currentDataLength
    ∧ (handleSubmit form st (.ok "npub" decoded) .connError).state.isSearching = false
    ∧ (handleSubmit form st (.ok "npub" decoded) .connError).toasts = []
    ∧ (handleSubmit form st (.ok "npub" decoded) .connError).requests = []
    ∧ (handleSubmit form st (.ok "npub" decoded) .connError).state
        = { st with isSearching := false } := by
  refine ⟨?_, ?_, ?_, ?_, ?_, ?_⟩ <;> simp [handleSubmit, hn, decodeNpub]

/-- Witness for C8 from a state that already displays one result: the
previously fetched event list and cursor survive the failed retry. -/
theorem c8_connection_failure_frame_witness :
    (handleSubmit F0 S1 (.ok "npub" "a") .connError).state.events = [E3]
    ∧ (handleSubmit F0 S1 (.ok "npub" "a") .connError).state.currentDataLength = 1 :=
  ⟨(c8_connection_failure_frame F0 S1 "a" (by decide)).1,
   (c8_connection_failure_frame F0 S1 "a" (by decide)).2.1⟩

/-- C9: a submission with an empty npub field raises exactly the validation
warning, attempts no connection, issues no request and leaves the component
state untouched. -/
theorem c9_empty_npub_aborts (form : Form) (st : AppState)
    (dec : DecodeOutcome) (conn : ConnOutcome) (h : form.npub = "") :
    handleSubmit form st dec conn
      = { state := st, toasts := [Toast.warning "npub is required"]
        , requests := [], connectAttempted := false } := by
  simp [handleSubmit, h]

/-- Witness for C9 at a concrete empty-npub submission. -/
theorem c9_empty_npub_aborts_witness :
    handleSubmit { F0 with npub := "" } S0 (.ok "npub" "a") (.connected none [])
      = { state := S0, toasts := [Toast.warning "npub is required"]
        , requests := [], connectAttempted := false } :=
  c9_empty_npub_aborts { F0 with npub := "" } S0 (.ok "npub" "a")
    (.connected none []) rfl

/-- C10: a decode that throws a non-`Error` value behaves exactly like the
kind-mismatch path: `decodeNpub` returns no key and raises no toast, and
the submission aborts silently with no request and no state change. -/
theorem c10_nonerror_throw_is_silent (form : Form) (st : AppState)
    (conn : ConnOutcome) (msg : String) (hn : form.npub ≠ "") :
    decodeNpub (.threw false msg) = (none, [])
    ∧ handleSubmit form st (.threw false msg) conn
      = { state := st, toasts := [], requests := [], connectAttempted := false } := by
  constructor
  · rfl
  · simp [handleSubmit, hn, decodeNpub]

/-- Witness for C10 at a concrete non-`Error` throw. -/
theorem c10_nonerror_throw_is_silent_witness :
    decodeNpub (.threw false "oops") = (none, [])
    ∧ handleSubmit F0 S0 (.threw false "oops") .connError
      = { state := S0, toasts := [], requests := [], connectAttempted := false } :=
  c10_nonerror_throw_is_silent F0 S0 .connError "oops" (by decide)

end App
